import Mathlib

/-!
Shallow embedding of `src/App.vue` from `hightemp/link_description_generator`,
a browser client that renders a prompt from a template, posts it to a chat
completion endpoint, and manages a model catalog with filtering and
persisted settings.  Strings are modelled as Lean `String` / `List Char`;
the JavaScript string operations used by the source (`indexOf`-style search,
first-occurrence `replace` including its `$`-escape substitution semantics,
`toLowerCase`, `includes`, truthiness of `trim()`) are embedded below.
Network effects are modelled by passing the outcome of the single `fetch`
call as an explicit argument, and the imperative bodies of `loadModels` and
`generateDescription` as pure functions (for `generateDescription`, as the
list of observable events it performs, in program order).
-/

namespace LinkDescGen

/-- The set of characters removed by `String.prototype.trim` (ECMAScript
WhiteSpace and LineTerminator: TAB LF VT FF CR SP NBSP, the Zs separators,
LS, PS, and ZWNBSP). -/
def isJsWhitespace (c : Char) : Bool :=
  c.val = 9 || c.val = 10 || c.val = 11 || c.val = 12 || c.val = 13 ||
  c.val = 32 || c.val = 160 || c.val = 5760 ||
  (8192 ≤ c.val && c.val ≤ 8202) || c.val = 8232 || c.val = 8233 ||
  c.val = 8239 || c.val = 8287 || c.val = 12288 || c.val = 65279

/-- Predicate holding exactly when `s.trim()` is the empty string, i.e.
when `!s.trim()` is `true` in JavaScript. -/
def isBlank (s : String) : Bool :=
  s.data.all isJsWhitespace

/-- JS `String.prototype.indexOf` with a string needle, on character lists:
the least index at which `pat` occurs in `s` (`none` for JS `-1`).
The empty needle occurs at index 0 of every string. -/
def jsIndexOf (s pat : List Char) : Option Nat :=
  match s with
  | [] => if pat.isPrefixOf ([] : List Char) then some 0 else none
  | c :: rest =>
    if pat.isPrefixOf (c :: rest) then some 0
    else (jsIndexOf rest pat).map (· + 1)

/-- JS `String.prototype.includes` on character lists. -/
def jsIncludes (s pat : List Char) : Bool :=
  (jsIndexOf s pat).isSome

/-- JS `String.prototype.toLowerCase` on character lists (ASCII case
mapping; the embedding does not model full Unicode case conversion, which
none of the catalog constants here need). -/
def jsToLower (s : List Char) : List Char :=
  s.map Char.toLower

/-- ECMAScript `GetSubstitution` for a string search value (no capture
groups): expands `$$` to `$`, `$&` to the matched text, a `$`-backquote
escape to the text before the match, a `$`-quote escape to the text after
the match, and leaves every other character (including unmatched `$`
escapes such as `$1`, which has no capture to refer to) literal. -/
def getSubstitution (matched before after : List Char) : List Char → List Char
  | [] => []
  | c :: rest =>
    if c = '$' then
      match rest with
      | [] => [c]
      | d :: rest2 =>
        if d = '$' then '$' :: getSubstitution matched before after rest2
        else if d = '&' then matched ++ getSubstitution matched before after rest2
        else if d = Char.ofNat 96 then before ++ getSubstitution matched before after rest2
        else if d = Char.ofNat 39 then after ++ getSubstitution matched before after rest2
        else c :: getSubstitution matched before after (d :: rest2)
    else c :: getSubstitution matched before after rest

/-- JS `String.prototype.replace(pat, rep)` with string `pat` and string
`rep`: replaces the first occurrence of `pat` (if any) with the
`GetSubstitution` expansion of `rep`. -/
def jsReplaceFirst (s pat rep : List Char) : List Char :=
  match jsIndexOf s pat with
  | none => s
  | some i =>
    s.take i ++
    getSubstitution pat (s.take i) (s.drop (i + pat.length)) rep ++
    s.drop (i + pat.length)

/-- Number of indices of `s` at which `pat` occurs (used to state the
"exactly one `\x7binput\x7d` token" hypothesis of the spec). -/
def occCount (s pat : List Char) : Nat :=
  match s with
  | [] => if pat.isPrefixOf ([] : List Char) then 1 else 0
  | c :: rest =>
    (if pat.isPrefixOf (c :: rest) then 1 else 0) + occCount rest pat

/-- The placeholder token of the prompt template. -/
def inputToken : List Char := "{input}".data

/-- Prompt rendering of `generateDescription`: the first occurrence of the
placeholder token in the template is replaced by the user input, with the
JS replacement semantics above. -/
def renderPrompt (template input : String) : String :=
  String.mk (jsReplaceFirst template.data inputToken input.data)

/-- Models `response.ok` of the Fetch standard: status in 200..299. -/
def respOk (status : Nat) : Bool :=
  200 ≤ status && status ≤ 299

/-- The `pricing` sub-object of a model descriptor. -/
structure Pricing where
  prompt : String
  completion : String
deriving DecidableEq

/-- The `Model` interface of `App.vue`. -/
structure ModelDesc where
  id : String
  name : String
  description : Option String
  context_length : Option Nat
  pricing : Option Pricing
deriving DecidableEq

/-- A raw entry of the catalog endpoint's `data` array, before the mapping
in `loadModels`.  `name` is `none` when the field is absent (JS
`undefined`); an absent or empty name is falsy. -/
structure RawModel where
  id : String
  name : Option String
  description : Option String
  context_length : Option Nat
  pricing : Option Pricing
deriving DecidableEq

/-- The per-entry mapping of `loadModels`: `name: model.name || model.id`
(a falsy — absent or empty — name falls back to the id), other fields
copied. -/
def mapRawModel (m : RawModel) : ModelDesc :=
  { id := m.id
    name :=
      match m.name with
      | some n => if n = "" then m.id else n
      | none => m.id
    description := m.description
    context_length := m.context_length
    pricing := m.pricing }

/-- The hardcoded fallback catalog assigned in the `catch` block of
`loadModels`. -/
def fallbackModels : List ModelDesc :=
  [ { id := "openai/gpt-4o-mini", name := "GPT-4o Mini",
      description := none, context_length := none, pricing := none },
    { id := "anthropic/claude-sonnet-4", name := "Claude Sonnet 4",
      description := none, context_length := none, pricing := none } ]

/-- Body of a catalog response whose JSON parsed: either it has a usable
`data` array, or `data.data.map` throws (caught by the `catch`). -/
inductive ModelsBody where
  | withData (data : List RawModel)
  | malformed
deriving DecidableEq

/-- Outcome of the catalog fetch: `thrown` covers a network error or a
body that fails to parse as JSON (both reach the `catch` block);
`response status body` is a resolved HTTP response. -/
inductive ModelsFetchOutcome where
  | thrown
  | response (status : Nat) (body : ModelsBody)
deriving DecidableEq

/-- Embeds `loadModels` from `App.vue`, as a function from the current in-memory
catalog and the fetch outcome to the new catalog.  On an ok response with
a `data` array the catalog is replaced by the mapped entries; when an
exception is thrown (network error, unparseable JSON, or `data.data.map`
throwing) the `catch` assigns the fallback; a resolved non-2xx response
skips the `if (response.ok)` body without throwing, leaving the catalog
as it was. -/
def loadModels (catalog : List ModelDesc) (outcome : ModelsFetchOutcome) :
    List ModelDesc :=
  match outcome with
  | ModelsFetchOutcome.thrown => fallbackModels
  | ModelsFetchOutcome.response status body =>
    if respOk status then
      match body with
      | ModelsBody.withData data => data.map mapRawModel
      | ModelsBody.malformed => fallbackModels
    else catalog

/-- The per-model predicate of the `filteredModels` computed property,
with `f` the (already lowercased in the source; lowercased here from the
raw filter) filter: name, id, or description contains it, an absent or
empty description being falsy. -/
def matchesFilter (filterStr : String) (m : ModelDesc) : Bool :=
  let f := jsToLower filterStr.data
  jsIncludes (jsToLower m.name.data) f ||
  jsIncludes (jsToLower m.id.data) f ||
  (match m.description with
   | some d => jsIncludes (jsToLower d.data) f
   | none => false)

/-- The `filteredModels` computed property: the full catalog for a falsy
(empty) filter, otherwise the entries matching the filter. -/
def filteredModels (models : List ModelDesc) (filterStr : String) :
    List ModelDesc :=
  if filterStr = "" then models
  else models.filter (matchesFilter filterStr)

/-- The browser's local key-value store, as a partial map. -/
def Store : Type := String → Option String

/-- Models `localStorage.setItem`. -/
def setItem (st : Store) (k v : String) : Store :=
  fun k2 => if k2 = k then some v else st k2

/-- Models `localStorage.removeItem`. -/
def removeItem (st : Store) (k : String) : Store :=
  fun k2 => if k2 = k then none else st k2

/-- The storage key of the API key. -/
def apiKeyStorageKey : String := "openrouter_api_key"

/-- Embeds `saveApiKey` from `App.vue`: stores the key when its trim is truthy,
deletes the entry otherwise. -/
def saveApiKey (st : Store) (key : String) : Store :=
  if !isBlank key then setItem st apiKeyStorageKey key
  else removeItem st apiKeyStorageKey

/-- The `message` object of a completion choice. -/
structure Message where
  content : String
deriving DecidableEq

/-- One element of the `choices` array; `message` is `none` when the field
is absent (accessing `.content` on it throws). -/
structure Choice where
  message : Option Message
deriving DecidableEq

/-- A parsed completion response body. -/
structure ChatResponse where
  choices : List Choice
deriving DecidableEq

/-- The access chain `data.choices[0].message.content`: `none` when it
throws a TypeError (empty `choices`, or first choice without `message`),
which the `catch` block of `generateDescription` handles. -/
def extractContent (r : ChatResponse) : Option String :=
  match r.choices with
  | [] => none
  | c :: _ =>
    match c.message with
    | none => none
    | some m => some m.content

/-- Outcome of the completion fetch: `thrown` covers the fetch rejecting
(network error) or the body failing to parse as JSON; `response` is a
resolved HTTP response with its parsed body. -/
inductive FetchOutcome where
  | thrown
  | response (status : Nat) (body : ChatResponse)
deriving DecidableEq

/-- The completion request issued by `generateDescription`: the selected
model id, the rendered prompt as the sole user-role message content, and
the bearer credential of the `Authorization` header. -/
structure ChatRequest where
  model : String
  content : String
  bearer : String
deriving DecidableEq

/-- The component state read and written by `generateDescription`. -/
structure GenState where
  inputText : String
  apiKey : String
  selectedModel : String
  systemPrompt : String
  outputText : String
  isLoading : Bool
deriving DecidableEq

/-- An observable action of `generateDescription`, in program order. -/
inductive GenEvent where
  | alert (msg : String)
  | setLoading (b : Bool)
  | setOutput (s : String)
  | fetchRequest (req : ChatRequest)
deriving DecidableEq

/-- The blocking validation alert text. -/
def validationAlertMsg : String := "Пожалуйста, введите текст и API ключ"

/-- The fixed failure string assigned to the output on any generation
error. -/
def generationErrorMsg : String :=
  "Ошибка при генерации описания. Проверьте API ключ и попробуйте снова."

/-- Embeds `generateDescription` from `App.vue` as the list of observable events
it performs, given the outcome of its single fetch.  An empty (blank)
trimmed input text or API key alerts and returns before any stateful
step; otherwise the loading flag is raised, the output cleared, the
request issued, the outcome handled (non-2xx throws, reaching the same
`catch` as a network error or a TypeError from the access chain), and the
`finally` clears the loading flag. -/
def generateDescription (st : GenState) (outcome : FetchOutcome) :
    List GenEvent :=
  if isBlank st.inputText || isBlank st.apiKey then
    [GenEvent.alert validationAlertMsg]
  else
    [GenEvent.setLoading true, GenEvent.setOutput "",
     GenEvent.fetchRequest
       { model := st.selectedModel
         content := renderPrompt st.systemPrompt st.inputText
         bearer := st.apiKey }] ++
    (match outcome with
     | FetchOutcome.thrown => [GenEvent.setOutput generationErrorMsg]
     | FetchOutcome.response status body =>
       if respOk status then
         match extractContent body with
         | some c => [GenEvent.setOutput c]
         | none => [GenEvent.setOutput generationErrorMsg]
       else [GenEvent.setOutput generationErrorMsg]) ++
    [GenEvent.setLoading false]

/-- Effect of one event on the component state (alerts and the network
request itself do not change the bound state). -/
def applyEvent (st : GenState) (e : GenEvent) : GenState :=
  match e with
  | GenEvent.setLoading b => { st with isLoading := b }
  | GenEvent.setOutput s => { st with outputText := s }
  | GenEvent.alert _ => st
  | GenEvent.fetchRequest _ => st

/-- State after running a list of events. -/
def runEvents (st : GenState) (es : List GenEvent) : GenState :=
  es.foldl applyEvent st

/-! Helper lemmas shared by the claim theorems. -/

/-- The empty needle is included in every string. -/
theorem jsIncludes_nil (s : List Char) : jsIncludes s [] = true := by
  cases s <;> simp [jsIncludes, jsIndexOf, List.isPrefixOf]

/-- A hit reported by `jsIndexOf` really is an occurrence of the needle. -/
theorem jsIndexOf_isPrefixOf (pat : List Char) :
    ∀ (s : List Char) (i : Nat), jsIndexOf s pat = some i →
      pat.isPrefixOf (s.drop i) = true := by
  intro s
  induction s with
  | nil =>
    intro i h
    simp only [jsIndexOf] at h
    by_cases hp : pat.isPrefixOf ([] : List Char)
    · rw [if_pos hp] at h
      cases h
      simpa using hp
    · rw [if_neg hp] at h
      cases h
  | cons c rest ih =>
    intro i h
    simp only [jsIndexOf] at h
    by_cases hp : pat.isPrefixOf (c :: rest)
    · rw [if_pos hp] at h
      cases h
      simpa using hp
    · rw [if_neg hp] at h
      obtain ⟨j, hj, hji⟩ := Option.map_eq_some'.mp h
      subst hji
      simpa using ih j hj

/-- A replacement string without a dollar sign is substituted literally. -/
theorem getSubstitution_no_dollar (matched before after : List Char) :
    ∀ rep : List Char, '$' ∉ rep →
      getSubstitution matched before after rep = rep := by
  intro rep
  induction rep with
  | nil => intro _; rfl
  | cons c rest ih =>
    intro h
    have hc : ¬(c = '$') := fun hc => h (by simp [hc])
    have hrest : ('$' : Char) ∉ rest := fun hm => h (List.mem_cons_of_mem _ hm)
    rw [getSubstitution.eq_def]
    simp only [if_neg hc]
    rw [ih hrest]

/-- A string with a positive occurrence count has a first occurrence. -/
theorem occCount_pos (pat : List Char) :
    ∀ s : List Char, occCount s pat ≠ 0 → ∃ i, jsIndexOf s pat = some i := by
  intro s
  induction s with
  | nil =>
    intro h
    by_cases hp : pat.isPrefixOf ([] : List Char)
    · exact ⟨0, by simp [jsIndexOf, hp]⟩
    · simp [occCount, hp] at h
  | cons c rest ih =>
    intro h
    by_cases hp : pat.isPrefixOf (c :: rest)
    · exact ⟨0, by simp [jsIndexOf, hp]⟩
    · simp only [occCount, if_neg hp, Nat.zero_add] at h
      obtain ⟨j, hj⟩ := ih h
      exact ⟨j + 1, by simp [jsIndexOf, hp, hj]⟩

/-! Claim theorems. -/

/-- C4: filtering any catalog with the empty filter string returns the
catalog itself unchanged. -/
theorem filteredModels_empty_filter_identity (models : List ModelDesc) :
    filteredModels models "" = models := by
  simp [filteredModels]

/-- C5: for every catalog and filter string, the filtered list is a
subsequence of the catalog (order retained, no reordering), and every
element of it matches the filter case-insensitively in at least one of
its name, id, or description fields. -/
theorem filteredModels_sublist_and_matches (models : List ModelDesc)
    (f : String) :
    List.Sublist (filteredModels models f) models ∧
    ∀ m ∈ filteredModels models f, matchesFilter f m = true := by
  by_cases hf : f = ""
  · subst hf
    refine ⟨by simp [filteredModels], ?_⟩
    intro m _
    have hnil : jsToLower (String.data "") = [] := rfl
    simp [matchesFilter, hnil, jsIncludes_nil]
  · refine ⟨?_, ?_⟩
    · simp only [filteredModels, if_neg hf]
      exact List.filter_sublist models
    · intro m hm
      simp only [filteredModels, if_neg hf, List.mem_filter] at hm
      exact hm.2

/-- Witness for C5 at a concrete catalog and filter. -/
theorem filteredModels_sublist_and_matches_witness :
    List.Sublist (filteredModels fallbackModels "gpt") fallbackModels ∧
    matchesFilter "gpt"
      { id := "openai/gpt-4o-mini", name := "GPT-4o Mini",
        description := none, context_length := none, pricing := none } = true :=
  ⟨(filteredModels_sublist_and_matches fallbackModels "gpt").1,
   (filteredModels_sublist_and_matches fallbackModels "gpt").2 _ (by decide)⟩

/-- C8: setting the API key to an empty string removes the persisted key
entirely from the local store (also after any previously stored value),
rather than storing an empty string. -/
theorem saveApiKey_empty_removes (st : Store) (prev : String) :
    saveApiKey st "" apiKeyStorageKey = none ∧
    saveApiKey (saveApiKey st prev) "" apiKeyStorageKey = none := by
  have hblank : isBlank "" = true := rfl
  constructor <;> simp [saveApiKey, hblank, removeItem]

/-- C9: a successful fetch replaces the catalog with the entries mapped by
`mapRawModel`, whose name field equals the source entry's name when that
name is present and non-empty and otherwise equals the entry's id; an
entry with a non-empty source id therefore gets a non-empty display
name. -/
theorem mapRawModel_name_spec (m : RawModel) :
    (∀ n, m.name = some n → n ≠ "" → (mapRawModel m).name = n) ∧
    ((m.name = none ∨ m.name = some "") → (mapRawModel m).name = m.id) ∧
    (m.id ≠ "" → (mapRawModel m).name ≠ "") ∧
    (∀ (catalog : List ModelDesc) (status : Nat) (data : List RawModel),
      respOk status = true →
      loadModels catalog
        (ModelsFetchOutcome.response status (ModelsBody.withData data)) =
        data.map mapRawModel) := by
  refine ⟨?_, ?_, ?_, ?_⟩
  · intro n hn hne
    simp [mapRawModel, hn, hne]
  · rintro (h | h) <;> simp [mapRawModel, h]
  · intro hid
    cases hm : m.name with
    | none => simpa [mapRawModel, hm] using hid
    | some n =>
      by_cases hn : n = ""
      · simp [mapRawModel, hm, hn]
        exact hid
      · simp [mapRawModel, hm, hn]
  · intro catalog status data hok
    simp [loadModels, hok]

/-- Witness for C9 at concrete raw entries. -/
theorem mapRawModel_name_spec_witness :
    (mapRawModel (RawModel.mk "i1" (some "N") none none none)).name = "N" ∧
    (mapRawModel (RawModel.mk "i2" none none none none)).name = "i2" ∧
    (mapRawModel (RawModel.mk "i3" (some "") none none none)).name ≠ "" ∧
    loadModels [] (ModelsFetchOutcome.response 200 (ModelsBody.withData
      [RawModel.mk "i1" (some "N") none none none])) =
      [mapRawModel (RawModel.mk "i1" (some "N") none none none)] :=
  ⟨(mapRawModel_name_spec _).1 "N" rfl (by decide),
   ((mapRawModel_name_spec (RawModel.mk "i2" none none none none)).2.1
     (Or.inl rfl)),
   ((mapRawModel_name_spec _).2.2.1 (by decide)),
   ((mapRawModel_name_spec (RawModel.mk "i1" (some "N") none none none)).2.2.2
     [] 200 _ (by decide))⟩

/-- C1 counterexample: a completed fetch with HTTP status 500 (a non-2xx
response, which does not throw) leaves an empty catalog empty; the result
is not the two-entry fallback list. -/
theorem loadModels_http500_not_fallback :
    loadModels [] (ModelsFetchOutcome.response 500 (ModelsBody.withData []))
      ≠ fallbackModels := by
  decide

/-- C1 (amended): a fetch that completes with a non-2xx HTTP status does
not propagate an error and leaves the in-memory catalog unchanged; the
fixed two-entry fallback list is substituted when the fetch throws
(network error or malformed body). -/
theorem loadModels_non2xx_leaves_catalog (catalog : List ModelDesc)
    (status : Nat) (body : ModelsBody) (h : respOk status = false) :
    loadModels catalog (ModelsFetchOutcome.response status body) = catalog ∧
    loadModels catalog ModelsFetchOutcome.thrown = fallbackModels := by
  constructor
  · simp [loadModels, h]
  · rfl

/-- Witness for the amended C1 at HTTP 500 over an empty catalog. -/
theorem loadModels_non2xx_leaves_catalog_witness :
    loadModels [] (ModelsFetchOutcome.response 500 (ModelsBody.withData []))
      = [] ∧
    loadModels [] ModelsFetchOutcome.thrown = fallbackModels :=
  loadModels_non2xx_leaves_catalog [] 500 (ModelsBody.withData []) (by decide)

/-- C3: when the input text or the API key is empty after trimming,
`generateDescription` shows the validation alert, issues no network
request, and leaves the component state (output text and loading flag
included) unchanged. -/
theorem generate_validation_guard (st : GenState) (outcome : FetchOutcome)
    (h : isBlank st.inputText = true ∨ isBlank st.apiKey = true) :
    GenEvent.alert validationAlertMsg ∈ generateDescription st outcome ∧
    (∀ req, GenEvent.fetchRequest req ∉ generateDescription st outcome) ∧
    runEvents st (generateDescription st outcome) = st := by
  have hcond : (isBlank st.inputText || isBlank st.apiKey) = true := by
    rcases h with h | h <;> simp [h]
  refine ⟨?_, ?_, ?_⟩ <;>
    simp [generateDescription, hcond, runEvents, applyEvent]

/-- Witness for C3 with a blank input text. -/
theorem generate_validation_guard_witness :
    GenEvent.alert validationAlertMsg ∈
      generateDescription
        { inputText := " ", apiKey := "sk-test", selectedModel := "m",
          systemPrompt := "p", outputText := "old", isLoading := false }
        FetchOutcome.thrown ∧
    (∀ req, GenEvent.fetchRequest req ∉
      generateDescription
        { inputText := " ", apiKey := "sk-test", selectedModel := "m",
          systemPrompt := "p", outputText := "old", isLoading := false }
        FetchOutcome.thrown) ∧
    runEvents
      { inputText := " ", apiKey := "sk-test", selectedModel := "m",
        systemPrompt := "p", outputText := "old", isLoading := false }
      (generateDescription
        { inputText := " ", apiKey := "sk-test", selectedModel := "m",
          systemPrompt := "p", outputText := "old", isLoading := false }
        FetchOutcome.thrown) =
      { inputText := " ", apiKey := "sk-test", selectedModel := "m",
        systemPrompt := "p", outputText := "old", isLoading := false } :=
  generate_validation_guard _ FetchOutcome.thrown (Or.inl (by decide))

/-- C6: when validation passes and the completion fetch resolves with a
2xx status whose first choice's message content is the string `s`,
`generateDescription` surfaces exactly `s` as the output, verbatim. -/
theorem generate_success_verbatim (st : GenState) (status : Nat) (s : String)
    (rest : List Choice) (h1 : isBlank st.inputText = false)
    (h2 : isBlank st.apiKey = false) (h3 : respOk status = true) :
    (runEvents st (generateDescription st (FetchOutcome.response status
      (ChatResponse.mk (Choice.mk (some (Message.mk s)) :: rest))))).outputText
      = s := by
  simp [generateDescription, h1, h2, h3, extractContent, runEvents, applyEvent]

/-- Witness for C6 at the response of the spec's example, whose first
choice's message content is a markdown-like list line. -/
theorem generate_success_verbatim_witness :
    (runEvents
      (GenState.mk "some text" "sk-test" "openai/gpt-4o-mini" "T: {input}"
        "" false)
      (generateDescription
        (GenState.mk "some text" "sk-test" "openai/gpt-4o-mini" "T: {input}"
          "" false)
        (FetchOutcome.response 200
          (ChatResponse.mk [Choice.mk (some (Message.mk
            "- A — b. http://x"))])))).outputText = "- A — b. http://x" :=
  generate_success_verbatim _ 200 "- A — b. http://x" [] (by decide)
    (by decide) (by decide)

/-- C7: when validation passes and the generation attempt fails — the
fetch throws (network failure), the status is non-2xx, or the body lacks
the expected first-choice message field — the output is the one fixed
failure string, and the loading flag is cleared so the UI returns to an
interactive state. -/
theorem generate_failure_fixed_message (st : GenState) (outcome : FetchOutcome)
    (h1 : isBlank st.inputText = false) (h2 : isBlank st.apiKey = false)
    (h3 : outcome = FetchOutcome.thrown ∨
      ∃ status body, outcome = FetchOutcome.response status body ∧
        (respOk status = false ∨ extractContent body = none)) :
    (runEvents st (generateDescription st outcome)).outputText =
      generationErrorMsg ∧
    (runEvents st (generateDescription st outcome)).isLoading = false := by
  rcases h3 with h3 | ⟨status, body, rfl, h4 | h4⟩
  · subst h3
    constructor <;> simp [generateDescription, h1, h2, runEvents, applyEvent]
  · constructor <;>
      simp [generateDescription, h1, h2, h4, runEvents, applyEvent]
  · constructor <;>
      · by_cases hok : respOk status <;>
          simp [generateDescription, h1, h2, hok, h4, runEvents, applyEvent]

/-- Witness for C7 on a network failure. -/
theorem generate_failure_fixed_message_witness :
    (runEvents
      (GenState.mk "some text" "sk-test" "m" "T: {input}" "old" false)
      (generateDescription
        (GenState.mk "some text" "sk-test" "m" "T: {input}" "old" false)
        FetchOutcome.thrown)).outputText = generationErrorMsg ∧
    (runEvents
      (GenState.mk "some text" "sk-test" "m" "T: {input}" "old" false)
      (generateDescription
        (GenState.mk "some text" "sk-test" "m" "T: {input}" "old" false)
        FetchOutcome.thrown)).isLoading = false :=
  generate_failure_fixed_message _ FetchOutcome.thrown (by decide) (by decide)
    (Or.inl rfl)

/-- C10: when validation passes, `generateDescription` raises the loading
flag and resets the output text to the empty string before issuing the
network request, and the loading flag is false once the attempt
completes, on the success path and on every failure path. -/
theorem generate_resets_output_before_request (st : GenState)
    (outcome : FetchOutcome) (h1 : isBlank st.inputText = false)
    (h2 : isBlank st.apiKey = false) :
    (∃ req rest, generateDescription st outcome =
      GenEvent.setLoading true :: GenEvent.setOutput "" ::
        GenEvent.fetchRequest req :: rest) ∧
    (runEvents st (generateDescription st outcome)).isLoading = false := by
  constructor
  · cases outcome with
    | thrown =>
      refine ⟨ChatRequest.mk st.selectedModel
        (renderPrompt st.systemPrompt st.inputText) st.apiKey,
        [GenEvent.setOutput generationErrorMsg, GenEvent.setLoading false], ?_⟩
      simp [generateDescription, h1, h2]
    | response status body =>
      by_cases hok : respOk status
      · cases hc : extractContent body with
        | some c =>
          refine ⟨ChatRequest.mk st.selectedModel
            (renderPrompt st.systemPrompt st.inputText) st.apiKey,
            [GenEvent.setOutput c, GenEvent.setLoading false], ?_⟩
          simp [generateDescription, h1, h2, hok, hc]
        | none =>
          refine ⟨ChatRequest.mk st.selectedModel
            (renderPrompt st.systemPrompt st.inputText) st.apiKey,
            [GenEvent.setOutput generationErrorMsg,
             GenEvent.setLoading false], ?_⟩
          simp [generateDescription, h1, h2, hok, hc]
      · refine ⟨ChatRequest.mk st.selectedModel
          (renderPrompt st.systemPrompt st.inputText) st.apiKey,
          [GenEvent.setOutput generationErrorMsg, GenEvent.setLoading false],
          ?_⟩
        simp [generateDescription, h1, h2, hok]
  · cases outcome with
    | thrown => simp [generateDescription, h1, h2, runEvents, applyEvent]
    | response status body =>
      by_cases hok : respOk status
      · cases hc : extractContent body with
        | some c =>
          simp [generateDescription, h1, h2, hok, hc, runEvents, applyEvent]
        | none =>
          simp [generateDescription, h1, h2, hok, hc, runEvents, applyEvent]
      · simp [generateDescription, h1, h2, hok, runEvents, applyEvent]

/-- Witness for C10 on a successful outcome. -/
theorem generate_resets_output_before_request_witness :
    (∃ req rest, generateDescription
      (GenState.mk "some text" "sk-test" "m" "T: {input}" "old" true)
      (FetchOutcome.response 200
        (ChatResponse.mk [Choice.mk (some (Message.mk "RES"))])) =
      GenEvent.setLoading true :: GenEvent.setOutput "" ::
        GenEvent.fetchRequest req :: rest) ∧
    (runEvents
      (GenState.mk "some text" "sk-test" "m" "T: {input}" "old" true)
      (generateDescription
        (GenState.mk "some text" "sk-test" "m" "T: {input}" "old" true)
        (FetchOutcome.response 200
          (ChatResponse.mk [Choice.mk (some (Message.mk "RES"))])))).isLoading
      = false :=
  generate_resets_output_before_request _ _ (by decide) (by decide)

/-- C2 counterexample: on the template with the single placeholder token
between the letters a and b, the input text of two dollar signs renders
(per the `GetSubstitution` semantics of JS `replace`, which expands a
doubled dollar to one dollar) to a single dollar between them, not to the
template with the token replaced by the input text. -/
theorem renderPrompt_dollar_counterexample :
    occCount ("a{input}b").data inputToken = 1 ∧
    renderPrompt "a{input}b" "$$" = "a$b" ∧
    renderPrompt "a{input}b" "$$" ≠ "a$$b" := by
  constructor
  · decide
  · constructor <;> decide

/-- C2 (amended): for every prompt template containing exactly one
occurrence of the placeholder token and every input text containing no
dollar sign (so that the `GetSubstitution` escapes of JS `replace` do not
fire), the rendered prompt equals the template with that single token
replaced by the input text, no other text altered. -/
theorem renderPrompt_single_token (template t : String)
    (h1 : occCount template.data inputToken = 1)
    (h2 : ('$' : Char) ∉ t.data) :
    ∃ a b : List Char,
      template.data = a ++ inputToken ++ b ∧
      (renderPrompt template t).data = a ++ t.data ++ b := by
  obtain ⟨i, hi⟩ := occCount_pos inputToken template.data (by omega)
  have hpre : inputToken.isPrefixOf (template.data.drop i) = true :=
    jsIndexOf_isPrefixOf inputToken template.data i hi
  have hpre2 : inputToken <+: template.data.drop i :=
    List.isPrefixOf_iff_prefix.mp hpre
  obtain ⟨b2, hb2⟩ := hpre2
  have h4 : (template.data.drop i).drop inputToken.length =
      template.data.drop (i + inputToken.length) := by
    rw [List.drop_drop, Nat.add_comm]
  have h5 : template.data.drop i =
      inputToken ++ template.data.drop (i + inputToken.length) := by
    rw [← h4, ← hb2, List.drop_left]
  refine ⟨template.data.take i, template.data.drop (i + inputToken.length),
    ?_, ?_⟩
  · conv_lhs => rw [← List.take_append_drop i template.data, h5]
    exact (List.append_assoc _ _ _).symm
  · show (jsReplaceFirst template.data inputToken t.data) = _
    simp only [jsReplaceFirst, hi]
    rw [getSubstitution_no_dollar _ _ _ t.data h2]

/-- Witness for the amended C2 on a small template and input. -/
theorem renderPrompt_single_token_witness :
    ∃ a b : List Char,
      ("a{input}b" : String).data = a ++ inputToken ++ b ∧
      (renderPrompt "a{input}b" "xy").data = a ++ ("xy" : String).data ++ b :=
  renderPrompt_single_token "a{input}b" "xy" (by decide) (by decide)

end LinkDescGen
